import Mathlib

/-!
Verification development for the workload-ingestion pipeline of
`cmd/cluster-capacity/app/options/options.go` (package `options`).

The Go code is shallowly embedded: the data structures mirror the
Kubernetes `v1.Pod` fields that the code touches, and the effectful
collaborators (HTTP GET, file open, YAML/JSON decode, external→internal
conversion, admission validation) are modelled as an explicit `Env` of
oracle functions, since they live in external libraries, not in this
repository.  Effects that matter to the claims (which source is fetched
or opened, when the HTTP response body is closed, when the decoder reads
the stream) are recorded as an explicit event trace.

Go loop semantics are embedded faithfully: `for _, versionedPod := range
versionedPodList.Items` iterates over value copies of the slice
elements, so writes to the copy's scalar fields do not persist into the
list, while writes through the copy's `Spec.Containers` slice go to the
shared backing array and do persist.  The final assignment
`s.Pod = versionedPodList` therefore stores the decoded items with only
the per-container termination-message defaulting applied.
-/

/-- Mirror of the fields of `v1.Container` used by the code. -/
structure Container where
  Name : String
  TerminationMessagePolicy : String
deriving DecidableEq, Repr

/-- Mirror of the fields of `v1.ObjectMeta` used by the code. -/
structure ObjectMeta where
  Name : String
  Namespace : String
deriving DecidableEq, Repr

/-- Mirror of the fields of `v1.PodSpec` used by the code. -/
structure PodSpec where
  SchedulerName : String
  DNSPolicy : String
  RestartPolicy : String
  Containers : List Container
deriving DecidableEq, Repr

/-- Mirror of the fields of `v1.Pod` used by the code. -/
structure Pod where
  ObjectMeta : ObjectMeta
  Spec : PodSpec
deriving DecidableEq, Repr

/-- Mirror of `v1.PodList` (the `Items` slice). -/
structure PodList where
  Items : List Pod
deriving DecidableEq, Repr

/-- Mirror of `ClusterCapacityOptions` (options.go lines 43-51). -/
structure ClusterCapacityOptions where
  Kubeconfig : String
  DefaultSchedulerConfigFile : String
  MaxLimit : Int
  Verbose : Bool
  PodSpecFile : String
  PodListSpecFile : String
  OutputFormat : String
deriving DecidableEq, Repr

/-- Mirror of `ClusterCapacityConfig` (options.go lines 37-41); the
`KubeClient` field is irrelevant to `ParseAPISpec` and omitted. -/
structure ClusterCapacityConfig where
  Pod : Option PodList
  Options : ClusterCapacityOptions
deriving DecidableEq, Repr

/-- A validation violation as used at options.go line 145: the
`field.Error` values carry a `Type` and a `Field` (`Type` is a Lean
keyword, so the field is spelled `Typ`). -/
structure FieldError where
  Typ : String
  Field : String
deriving DecidableEq, Repr

/-- Mirror of the parts of `http.Response` used by `downloadOrRead`:
`Status`, `StatusCode` and `Body` (the body stream is identified by a
string). -/
structure HttpResponse where
  Status : String
  StatusCode : Nat
  Body : String
deriving DecidableEq, Repr

/-- `http.StatusOK`. -/
def StatusOK : Nat := 200

/-- `v1.DNSClusterFirst`. -/
def DNSClusterFirst : String := "ClusterFirst"

/-- `v1.RestartPolicyAlways`. -/
def RestartPolicyAlways : String := "Always"

/-- `v1.TerminationMessageFallbackToLogsOnError`. -/
def TerminationMessageFallbackToLogsOnError : String := "FallbackToLogsOnError"

/-- The URL scheme recognised at options.go line 159. -/
def httpScheme : String := "http://"

/-- The second URL scheme recognised at options.go line 159. -/
def httpsScheme : String := "https://"

/-- Observable effects performed by the pipeline.  `fetch` is the
`http.Get` call, `closeBody` the (deferred) `response.Body.Close()`,
`openFile` the `os.Open` of the absolutised path (recording also the
string the caller asked for), and `decodeSingle` / `decodeList` the
decoder consuming a stream in single-pod or pod-list mode. -/
inductive Ev where
  | fetch (url : String)
  | closeBody (url : String)
  | openFile (requested : String) (resolved : String)
  | decodeSingle (stream : String)
  | decodeList (stream : String)
deriving DecidableEq, Repr

/-- The external collaborators of the pipeline, as oracles: `httpGet`
models `http.Get`, `fsOpen` models `os.Open`, `abs` models
`filepath.Abs` (whose error the code discards), `decodePod` and
`decodePodList` model `yaml.NewYAMLOrJSONDecoder(...).Decode` into a
`v1.Pod` resp. `v1.PodList`, `convert` models
`apiv1.Convert_v1_Pod_To_core_Pod` (the internal representation is
structurally equivalent to the external one), and `validate` models
`validation.ValidatePodCreate`. -/
structure Env where
  httpGet : String → Except String HttpResponse
  fsOpen : String → Except String String
  abs : String → String
  decodePod : String → Except String Pod
  decodePodList : String → Except String PodList
  convert : Pod → Except String Pod
  validate : Pod → List FieldError

/-- Model of `strings.HasPrefix` (computable on character lists). -/
def hasPfx (pfx s : String) : Bool :=
  pfx.data.isPrefixOf s.data

/-- Error message of options.go line 166 (`fmt.Errorf("unable to read
URL %q, server reported %v, status code=%v", ...)`); `%q` wraps the URL
in double quotes. -/
def httpStatusErrMsg (urlOrFile status : String) (statusCode : Nat) : String :=
  "unable to read URL \"" ++ urlOrFile ++
    ("\", server reported " ++ status ++ ", status code=" ++ toString statusCode)

/-- Error message of options.go line 173. -/
def openErrMsg (cause : String) : String :=
  "failed to open config file: " ++ cause

/-- Embedding of `downloadOrRead` (options.go lines 156-177).  Returns
the stream (or error) together with the trace of effects.  The
`defer response.Body.Close()` at line 164 is registered after the
`http.Get` error check and runs when the function returns, so on both
remaining HTTP paths the `closeBody` event is emitted before the
function's result reaches the caller. -/
def downloadOrRead (env : Env) (urlOrFile : String) :
    Except String String × List Ev :=
  if hasPfx httpScheme urlOrFile || hasPfx httpsScheme urlOrFile then
    match env.httpGet urlOrFile with
    | .error e => (.error e, [Ev.fetch urlOrFile])
    | .ok response =>
      if response.StatusCode ≠ StatusOK then
        (.error (httpStatusErrMsg urlOrFile response.Status response.StatusCode),
          [Ev.fetch urlOrFile, Ev.closeBody urlOrFile])
      else
        (.ok response.Body, [Ev.fetch urlOrFile, Ev.closeBody urlOrFile])
  else
    match env.fsOpen (env.abs urlOrFile) with
    | .error e => (.error (openErrMsg e), [Ev.openFile urlOrFile (env.abs urlOrFile)])
    | .ok f => (.ok f, [Ev.openFile urlOrFile (env.abs urlOrFile)])

/-- The per-container defaulting of options.go lines 130-134. -/
def defaultContainer (c : Container) : Container :=
  if c.TerminationMessagePolicy = "" then
    { c with TerminationMessagePolicy := TerminationMessageFallbackToLogsOnError }
  else c

/-- The defaulting applied to the loop-local pod copy (options.go lines
112-134): namespace, scheduler name, DNS policy, restart policy, and
every container's termination-message policy. -/
def injectDefaults (schedulerName : String) (p : Pod) : Pod :=
  let p1 :=
    if p.ObjectMeta.Namespace = "" then
      { p with ObjectMeta := { p.ObjectMeta with Namespace := "default" } }
    else p
  let p2 :=
    if p1.Spec.SchedulerName = "" then
      { p1 with Spec := { p1.Spec with SchedulerName := schedulerName } }
    else p1
  let p3 :=
    if p2.Spec.DNSPolicy = "" then
      { p2 with Spec := { p2.Spec with DNSPolicy := DNSClusterFirst } }
    else p2
  let p4 :=
    if p3.Spec.RestartPolicy = "" then
      { p3 with Spec := { p3.Spec with RestartPolicy := RestartPolicyAlways } }
    else p3
  { p4 with Spec := { p4.Spec with Containers := p4.Spec.Containers.map defaultContainer } }

/-- The part of the loop's mutation that persists into the list handed
to `s.Pod`: the loop variable is a value copy, so only the writes that
go through the shared `Spec.Containers` backing array (the
termination-message defaulting at lines 130-134) survive the iteration;
the scalar field writes at lines 112-128 die with the copy. -/
def persistContainerDefaults (p : Pod) : Pod :=
  { p with Spec := { p.Spec with Containers := p.Spec.Containers.map defaultContainer } }

/-- String rendering of one violation (options.go line 145,
`fmt.Sprintf("%v: %v", err.Type, err.Field)`). -/
def fieldErrStr (e : FieldError) : String :=
  e.Typ ++ ": " ++ e.Field

/-- Error message of options.go line 147; `%#v` of a Go string renders
it quoted (escaping inside the string is not modelled). -/
def invalidPodMsg (errs : List FieldError) : String :=
  "invalid pod: " ++ ("\"" ++ String.intercalate (", ") (errs.map fieldErrStr) ++ "\"")

/-- Error message of options.go line 139; `%#v` of the wrapped error is
modelled by the error's own string. -/
def convErrMsg (cause : String) : String :=
  "unable to convert to internal version: " ++ cause

/-- One iteration of the loop body (options.go lines 111-150) on the
value copy of a pod: default-inject, convert, validate; an error aborts
the whole call. -/
def processPod (env : Env) (schedulerName : String) (versionedPod : Pod) :
    Except String Unit :=
  let vp := injectDefaults schedulerName versionedPod
  match env.convert vp with
  | .error e => .error (convErrMsg e)
  | .ok internalPod =>
    let errs := env.validate internalPod
    if 0 < errs.length then .error (invalidPodMsg errs) else .ok ()

/-- The loop of options.go lines 111-150: iterate in list order,
returning the first error. -/
def processPods (env : Env) (schedulerName : String) : List Pod → Except String Unit
  | [] => .ok ()
  | p :: ps =>
    match processPod env schedulerName p with
    | .error e => .error e
    | .ok _ => processPods env schedulerName ps

/-- Decode-error message of options.go line 93 (single-pod mode). -/
def decodeErrMsgSingle (cause : String) : String :=
  "failed to decode config file: " ++ cause

/-- Decode-error message of options.go line 106 (list mode; the "dailed"
typo is the code's). -/
def decodeErrMsgList (cause : String) : String :=
  "dailed to decode config file: " ++ cause

/-- The source-selection and decode phase of `ParseAPISpec` (options.go
lines 84-108): when `PodSpecFile` is non-empty, resolve and decode it as
a single pod and wrap it in a one-element item list; otherwise resolve
and decode `PodListSpecFile` as a pod list. -/
def decodeItems (env : Env) (opts : ClusterCapacityOptions) :
    Except String (List Pod) × List Ev :=
  if 0 < opts.PodSpecFile.length then
    match downloadOrRead env opts.PodSpecFile with
    | (.error e, tr) => (.error e, tr)
    | (.ok spec, tr) =>
      match env.decodePod spec with
      | .error e => (.error (decodeErrMsgSingle e), tr ++ [Ev.decodeSingle spec])
      | .ok versionedPod => (.ok [versionedPod], tr ++ [Ev.decodeSingle spec])
  else
    match downloadOrRead env opts.PodListSpecFile with
    | (.error e, tr) => (.error e, tr)
    | (.ok spec, tr) =>
      match env.decodePodList spec with
      | .error e => (.error (decodeErrMsgList e), tr ++ [Ev.decodeList spec])
      | .ok versionedPodList => (.ok versionedPodList.Items, tr ++ [Ev.decodeList spec])

/-- Embedding of `ParseAPISpec` (options.go lines 78-154).  Returns the
error result, the updated config, and the effect trace.  `s.Pod` is
assigned only at line 152, after the whole loop has succeeded; because
the loop mutated the shared container arrays in place, the stored list
is the decoded items with `persistContainerDefaults` applied to each. -/
def ParseAPISpec (env : Env) (s : ClusterCapacityConfig) (schedulerName : String) :
    Except String Unit × ClusterCapacityConfig × List Ev :=
  match decodeItems env s.Options with
  | (.error e, tr) => (.error e, s, tr)
  | (.ok items, tr) =>
    match processPods env schedulerName items with
    | .error e => (.error e, s, tr)
    | .ok _ =>
      (.ok (), { s with Pod := some (PodList.mk (items.map persistContainerDefaults)) }, tr)

/-- Which configured source string an event resolves or reads, if any. -/
def evRequestedSource : Ev → Option String
  | Ev.fetch url => some url
  | Ev.closeBody url => some url
  | Ev.openFile requested _ => some requested
  | Ev.decodeSingle _ => none
  | Ev.decodeList _ => none

/-- Whether an event is a list-mode decode. -/
def isDecodeList : Ev → Bool
  | Ev.decodeList _ => true
  | _ => false

/-- Substring test on character lists. -/
def charListContains (pat : List Char) : List Char → Bool
  | [] => pat.isPrefixOf []
  | c :: cs => pat.isPrefixOf (c :: cs) || charListContains pat cs

/-- Substring test on strings (used to state what an error message does
and does not report). -/
def strContains (s pat : String) : Bool :=
  charListContains pat.data s.data

/-! ### Helper lemmas -/

/-- The trace of `downloadOrRead` is one of three shapes: a failed
fetch, a fetch followed by the deferred body close, or a file open. -/
theorem downloadOrRead_trace (env : Env) (u : String) :
    (downloadOrRead env u).2 = [Ev.fetch u] ∨
    (downloadOrRead env u).2 = [Ev.fetch u, Ev.closeBody u] ∨
    (downloadOrRead env u).2 = [Ev.openFile u (env.abs u)] := by
  unfold downloadOrRead
  split
  · split
    · exact Or.inl rfl
    · split
      · exact Or.inr (Or.inl rfl)
      · exact Or.inr (Or.inl rfl)
  · split
    · exact Or.inr (Or.inr rfl)
    · exact Or.inr (Or.inr rfl)

/-- Every event emitted by `downloadOrRead env u` requests source `u`. -/
theorem downloadOrRead_trace_sources (env : Env) (u : String) :
    ∀ ev ∈ (downloadOrRead env u).2, evRequestedSource ev = some u := by
  intro ev hev
  rcases downloadOrRead_trace env u with h | h | h <;> rw [h] at hev
  · simp at hev
    subst hev; rfl
  · simp at hev
    rcases hev with h1 | h1 <;> (subst h1; rfl)
  · simp at hev
    subst hev; rfl

/-! ### C6 -/

/-- C6: for every HTTP/HTTPS source whose fetch completes with a
non-success status code, `downloadOrRead` returns an error and no
stream; the message contains the original URL and the status code, and
the trace contains exactly one fetch (no retry). -/
theorem downloadOrRead_status_error (env : Env) (url : String) (resp : HttpResponse)
    (hpre : hasPfx httpScheme url = true ∨ hasPfx httpsScheme url = true)
    (hget : env.httpGet url = .ok resp)
    (hcode : resp.StatusCode ≠ StatusOK) :
    downloadOrRead env url =
      (.error (httpStatusErrMsg url resp.Status resp.StatusCode),
        [Ev.fetch url, Ev.closeBody url]) ∧
    (∃ pre post, httpStatusErrMsg url resp.Status resp.StatusCode = pre ++ url ++ post) ∧
    (∃ pre, httpStatusErrMsg url resp.Status resp.StatusCode =
      pre ++ toString resp.StatusCode) := by
  have hcond : (hasPfx httpScheme url || hasPfx httpsScheme url) = true := by
    rcases hpre with h | h <;> simp [h]
  refine ⟨?_, ?_, ?_⟩
  · simp [downloadOrRead, hcond, hget, hcode]
  · exact ⟨"unable to read URL \"",
      "\", server reported " ++ resp.Status ++ ", status code=" ++
        toString resp.StatusCode, rfl⟩
  · refine ⟨"unable to read URL \"" ++ url ++
      ("\", server reported " ++ resp.Status ++ ", status code="), ?_⟩
    simp [httpStatusErrMsg, String.append_assoc]

/-- Environment for the C6 witness: the server answers 404. -/
def envC6 : Env where
  httpGet := fun _ => .ok (HttpResponse.mk ("404 Not Found") 404 (""))
  fsOpen := fun _ => .error ("unused")
  abs := fun p => p
  decodePod := fun _ => .error ("unused")
  decodePodList := fun _ => .error ("unused")
  convert := fun p => .ok p
  validate := fun _ => []

/-- Witness for C6 at a concrete 404 response. -/
theorem downloadOrRead_status_error_witness :
    downloadOrRead envC6 ("http://example.com/pod.yaml") =
      (.error (httpStatusErrMsg ("http://example.com/pod.yaml") ("404 Not Found") 404),
        [Ev.fetch ("http://example.com/pod.yaml"),
         Ev.closeBody ("http://example.com/pod.yaml")]) ∧
    (∃ pre post, httpStatusErrMsg ("http://example.com/pod.yaml") ("404 Not Found") 404 =
      pre ++ ("http://example.com/pod.yaml") ++ post) ∧
    (∃ pre, httpStatusErrMsg ("http://example.com/pod.yaml") ("404 Not Found") 404 =
      pre ++ toString (404 : Nat)) :=
  downloadOrRead_status_error envC6 ("http://example.com/pod.yaml")
    (HttpResponse.mk ("404 Not Found") 404 (""))
    (Or.inl (by decide)) rfl (by decide)

/-! ### C10 -/

/-- C10: with both source fields empty, `ParseAPISpec` takes the list
branch, treats the empty string as a filesystem path (absolutised and
handed to the file opener), and surfaces an open failure as the
"failed to open config file" resolution error, leaving the config (and
its `Pod` field) unchanged. -/
theorem ParseAPISpec_both_empty_sources (env : Env) (s : ClusterCapacityConfig)
    (schedulerName : String) (e : String)
    (h1 : s.Options.PodSpecFile = "")
    (h2 : s.Options.PodListSpecFile = "")
    (hopen : env.fsOpen (env.abs ("")) = .error e) :
    ParseAPISpec env s schedulerName =
      (.error (openErrMsg e), s, [Ev.openFile ("") (env.abs (""))]) := by
  have hlen : ¬ 0 < s.Options.PodSpecFile.length := by
    rw [h1]; decide
  have hc : (hasPfx httpScheme ("") || hasPfx httpsScheme ("")) = false := by decide
  simp [ParseAPISpec, decodeItems, downloadOrRead, hlen, h2, hc, hopen]

/-- Environment for the C10 witness: opening any path fails. -/
def envC10 : Env where
  httpGet := fun _ => .error ("unused")
  fsOpen := fun _ => .error ("open .: is a directory")
  abs := fun p => p
  decodePod := fun _ => .error ("unused")
  decodePodList := fun _ => .error ("unused")
  convert := fun p => .ok p
  validate := fun _ => []

/-- Configuration with both source fields empty, for the C10 witness. -/
def cfgC10 : ClusterCapacityConfig where
  Pod := none
  Options :=
    { Kubeconfig := "", DefaultSchedulerConfigFile := "", MaxLimit := 0,
      Verbose := false, PodSpecFile := "", PodListSpecFile := "",
      OutputFormat := "" }

/-- Witness for C10 at a concrete environment whose open fails. -/
theorem ParseAPISpec_both_empty_sources_witness :
    ParseAPISpec envC10 cfgC10 ("cluster-capacity") =
      (.error (openErrMsg ("open .: is a directory")), cfgC10,
        [Ev.openFile ("") (envC10.abs (""))]) :=
  ParseAPISpec_both_empty_sources envC10 cfgC10 ("cluster-capacity")
    ("open .: is a directory") rfl rfl rfl

/-! ### C3 -/

/-- C3: whenever `ParseAPISpec` returns an error — resolution, decode,
conversion or validation failure at any position — the config is
returned unchanged: `s.Pod` is never set to a partial or filtered
list. -/
theorem ParseAPISpec_error_leaves_config (env : Env) (s : ClusterCapacityConfig)
    (schedulerName : String) (e : String)
    (herr : (ParseAPISpec env s schedulerName).1 = .error e) :
    (ParseAPISpec env s schedulerName).2.1 = s := by
  unfold ParseAPISpec at herr ⊢
  rcases hdi : decodeItems env s.Options with ⟨r, tr⟩
  cases r with
  | error e₀ => simp [hdi]
  | ok items =>
    rcases hp : processPods env schedulerName items with e₀ | u
    · simp [hdi, hp]
    · rw [hdi] at herr
      simp [hp] at herr

/-- Environment for the C3 witness: the pod fails validation. -/
def envC3 : Env where
  httpGet := fun _ => .error ("unused")
  fsOpen := fun _ => .ok ("stream")
  abs := fun p => p
  decodePod := fun _ =>
    .ok (Pod.mk (ObjectMeta.mk ("p1") ("")) (PodSpec.mk ("") ("") ("") []))
  decodePodList := fun _ => .error ("unused")
  convert := fun p => .ok p
  validate := fun _ => [FieldError.mk ("Required") ("metadata.name")]

/-- Configuration for the C3 witness: single-pod mode, `Pod` nil. -/
def cfgC3 : ClusterCapacityConfig where
  Pod := none
  Options :=
    { Kubeconfig := "", DefaultSchedulerConfigFile := "", MaxLimit := 0,
      Verbose := false, PodSpecFile := "pod.yaml", PodListSpecFile := "",
      OutputFormat := "" }

/-- Witness for C3: a validation failure on workload 1 leaves `Pod` nil. -/
theorem ParseAPISpec_error_leaves_config_witness :
    (ParseAPISpec envC3 cfgC3 ("sched")).2.1 = cfgC3 :=
  ParseAPISpec_error_leaves_config envC3 cfgC3 ("sched")
    (invalidPodMsg [FieldError.mk ("Required") ("metadata.name")]) rfl

/-- No event emitted by `downloadOrRead` is a list-mode decode. -/
theorem downloadOrRead_no_decode (env : Env) (u : String) :
    ∀ ev ∈ (downloadOrRead env u).2, isDecodeList ev = false := by
  intro ev hev
  rcases downloadOrRead_trace env u with h | h | h <;> rw [h] at hev
  · simp at hev
    subst hev; rfl
  · simp at hev
    rcases hev with h1 | h1 <;> (subst h1; rfl)
  · simp at hev
    subst hev; rfl

/-! ### C5 -/

/-- Pod used by the C5 environment. -/
def podC5 : Pod where
  ObjectMeta := { Name := "a", Namespace := "default" }
  Spec :=
    { SchedulerName := "s", DNSPolicy := "ClusterFirst",
      RestartPolicy := "Always", Containers := [] }

/-- Environment for C5: the fetch succeeds with status 200. -/
def envC5 : Env where
  httpGet := fun _ => .ok (HttpResponse.mk ("200 OK") 200 ("bodystream"))
  fsOpen := fun _ => .error ("unused")
  abs := fun p => p
  decodePod := fun _ => .ok podC5
  decodePodList := fun _ => .error ("unused")
  convert := fun p => .ok p
  validate := fun _ => []

/-- Configuration for C5: an HTTP single-pod source. -/
def cfgC5 : ClusterCapacityConfig where
  Pod := none
  Options :=
    { Kubeconfig := "", DefaultSchedulerConfigFile := "", MaxLimit := 0,
      Verbose := false, PodSpecFile := "http://example.com/pod.yaml",
      PodListSpecFile := "", OutputFormat := "" }

/-- C5: on a successful HTTP fetch the deferred `response.Body.Close()`
runs when `downloadOrRead` returns, so the trace records the body close
(position 1) strictly before the decoder's read of that body
(position 2): the stream handed to the decoder has already been
released, contradicting the claim that release happens only after the
decoder has fully consumed the stream. -/
theorem ParseAPISpec_body_closed_before_decode :
    (ParseAPISpec envC5 cfgC5 ("sched")).2.2 =
      [Ev.fetch ("http://example.com/pod.yaml"),
       Ev.closeBody ("http://example.com/pod.yaml"),
       Ev.decodeSingle ("bodystream")] ∧
    (ParseAPISpec envC5 cfgC5 ("sched")).1 = .ok () := by
  constructor <;> rfl

/-! ### C4 -/

/-- C4: when the single-workload source is non-empty, every source
resolution event in the trace requests only that source, no list-mode
decode ever happens, and on success the result is the single decoded
workload wrapped as a one-element list — the list source is never
resolved, read, or decoded. -/
theorem ParseAPISpec_single_source_precedence (env : Env) (s : ClusterCapacityConfig)
    (schedulerName : String) (hne : 0 < s.Options.PodSpecFile.length) :
    (∀ ev ∈ (ParseAPISpec env s schedulerName).2.2,
        evRequestedSource ev = none ∨ evRequestedSource ev = some s.Options.PodSpecFile) ∧
    (∀ ev ∈ (ParseAPISpec env s schedulerName).2.2, isDecodeList ev = false) ∧
    ((ParseAPISpec env s schedulerName).1 = .ok () →
      ∃ stm p, (downloadOrRead env s.Options.PodSpecFile).1 = .ok stm ∧
        env.decodePod stm = .ok p ∧
        (ParseAPISpec env s schedulerName).2.1.Pod =
          some (PodList.mk [persistContainerDefaults p])) := by
  rcases hdr : downloadOrRead env s.Options.PodSpecFile with ⟨r, tr⟩
  have htr : ∀ ev ∈ tr, evRequestedSource ev = some s.Options.PodSpecFile := by
    have h := downloadOrRead_trace_sources env s.Options.PodSpecFile
    rw [hdr] at h
    exact h
  have htr2 : ∀ ev ∈ tr, isDecodeList ev = false := by
    have h := downloadOrRead_no_decode env s.Options.PodSpecFile
    rw [hdr] at h
    exact h
  cases r with
  | error e =>
    have hPA : ParseAPISpec env s schedulerName = (.error e, s, tr) := by
      simp [ParseAPISpec, decodeItems, hne, hdr]
    rw [hPA]
    refine ⟨fun ev hev => Or.inr (htr ev hev), fun ev hev => htr2 ev hev, ?_⟩
    intro h
    simp at h
  | ok stm =>
    cases hdec : env.decodePod stm with
    | error e =>
      have hPA : ParseAPISpec env s schedulerName =
          (.error (decodeErrMsgSingle e), s, tr ++ [Ev.decodeSingle stm]) := by
        simp [ParseAPISpec, decodeItems, hne, hdr, hdec]
      rw [hPA]
      refine ⟨?_, ?_, ?_⟩
      · intro ev hev
        rcases List.mem_append.mp hev with h1 | h1
        · exact Or.inr (htr ev h1)
        · simp at h1
          subst h1
          exact Or.inl rfl
      · intro ev hev
        rcases List.mem_append.mp hev with h1 | h1
        · exact htr2 ev h1
        · simp at h1
          subst h1; rfl
      · intro h
        simp at h
    | ok p =>
      cases hpp : processPods env schedulerName [p] with
      | error e =>
        have hPA : ParseAPISpec env s schedulerName =
            (.error e, s, tr ++ [Ev.decodeSingle stm]) := by
          simp [ParseAPISpec, decodeItems, hne, hdr, hdec, hpp]
        rw [hPA]
        refine ⟨?_, ?_, ?_⟩
        · intro ev hev
          rcases List.mem_append.mp hev with h1 | h1
          · exact Or.inr (htr ev h1)
          · simp at h1
            subst h1
            exact Or.inl rfl
        · intro ev hev
          rcases List.mem_append.mp hev with h1 | h1
          · exact htr2 ev h1
          · simp at h1
            subst h1; rfl
        · intro h
          simp at h
      | ok v =>
        have hPA : ParseAPISpec env s schedulerName =
            (.ok (), { s with Pod := some (PodList.mk [persistContainerDefaults p]) },
              tr ++ [Ev.decodeSingle stm]) := by
          simp [ParseAPISpec, decodeItems, hne, hdr, hdec, hpp]
        rw [hPA]
        refine ⟨?_, ?_, ?_⟩
        · intro ev hev
          rcases List.mem_append.mp hev with h1 | h1
          · exact Or.inr (htr ev h1)
          · simp at h1
            subst h1
            exact Or.inl rfl
        · intro ev hev
          rcases List.mem_append.mp hev with h1 | h1
          · exact htr2 ev h1
          · simp at h1
            subst h1; rfl
        · intro _
          exact ⟨stm, p, rfl, hdec, rfl⟩

/-- Environment for the C4 witness: both sources would resolve, but only
the single-pod one is consulted. -/
def envC4 : Env where
  httpGet := fun _ => .error ("unused")
  fsOpen := fun _ => .ok ("stream")
  abs := fun p => p
  decodePod := fun _ => .ok podC5
  decodePodList := fun _ => .error ("list source must never be decoded")
  convert := fun p => .ok p
  validate := fun _ => []

/-- Configuration for the C4 witness: both source fields non-empty. -/
def cfgC4 : ClusterCapacityConfig where
  Pod := none
  Options :=
    { Kubeconfig := "", DefaultSchedulerConfigFile := "", MaxLimit := 0,
      Verbose := false, PodSpecFile := "pod.yaml", PodListSpecFile := "list.yaml",
      OutputFormat := "" }

/-- Witness for C4 at a configuration with both sources set. -/
theorem ParseAPISpec_single_source_precedence_witness :
    (∀ ev ∈ (ParseAPISpec envC4 cfgC4 ("sched")).2.2,
        evRequestedSource ev = none ∨
        evRequestedSource ev = some cfgC4.Options.PodSpecFile) ∧
    (∀ ev ∈ (ParseAPISpec envC4 cfgC4 ("sched")).2.2, isDecodeList ev = false) ∧
    ((ParseAPISpec envC4 cfgC4 ("sched")).1 = .ok () →
      ∃ stm p, (downloadOrRead envC4 cfgC4.Options.PodSpecFile).1 = .ok stm ∧
        envC4.decodePod stm = .ok p ∧
        (ParseAPISpec envC4 cfgC4 ("sched")).2.1.Pod =
          some (PodList.mk [persistContainerDefaults p])) :=
  ParseAPISpec_single_source_precedence envC4 cfgC4 ("sched") (by decide)

/-! ### C7 -/

/-- The per-container defaulting is idempotent. -/
theorem defaultContainer_idem (c : Container) :
    defaultContainer (defaultContainer c) = defaultContainer c := by
  unfold defaultContainer
  by_cases h : c.TerminationMessagePolicy = ""
  · simp [h, TerminationMessageFallbackToLogsOnError]
  · simp [h]

/-- C7: the default-injection step is idempotent — applying it twice to
any workload yields the same workload as applying it once, since a field
that is already non-empty is never overwritten. -/
theorem injectDefaults_idem (schedulerName : String) (p : Pod) :
    injectDefaults schedulerName (injectDefaults schedulerName p) =
      injectDefaults schedulerName p := by
  rcases p with ⟨⟨nm, ns⟩, ⟨sch, dns, rp, cs⟩⟩
  unfold injectDefaults
  by_cases hns : ns = "" <;> by_cases hsch : sch = "" <;>
    by_cases hdns : dns = "" <;> by_cases hrp : rp = "" <;>
      by_cases hsn : schedulerName = "" <;>
        simp [hns, hsch, hdns, hrp, hsn, List.map_map, Function.comp,
          defaultContainer_idem, DNSClusterFirst, RestartPolicyAlways]

/-! ### C8 -/

/-- C8: for a list document accepted by the pipeline, the stored list
has the same workload names in the same order, and the same length, as
the decoded document: no reordering, insertion, or removal. -/
theorem ParseAPISpec_order_preserved (env : Env) (s : ClusterCapacityConfig)
    (schedulerName : String) (stm : String) (pl : PodList) (tr : List Ev)
    (hsingle : s.Options.PodSpecFile = "")
    (hdr : downloadOrRead env s.Options.PodListSpecFile = (.ok stm, tr))
    (hdec : env.decodePodList stm = .ok pl)
    (hok : processPods env schedulerName pl.Items = .ok ()) :
    ∃ out : PodList,
      (ParseAPISpec env s schedulerName).2.1.Pod = some out ∧
      out.Items.map (fun p => p.ObjectMeta.Name) =
        pl.Items.map (fun p => p.ObjectMeta.Name) ∧
      out.Items.length = pl.Items.length := by
  have hlen : ¬ 0 < s.Options.PodSpecFile.length := by
    rw [hsingle]; decide
  refine ⟨PodList.mk (pl.Items.map persistContainerDefaults), ?_, ?_, ?_⟩
  · simp [ParseAPISpec, decodeItems, hlen, hdr, hdec, hok]
  · simp [List.map_map, Function.comp, persistContainerDefaults]
  · simp

/-- Pod with a given name and otherwise fixed valid-looking fields,
used by concrete list-mode environments. -/
def podN (nm : String) : Pod where
  ObjectMeta := { Name := nm, Namespace := "default" }
  Spec :=
    { SchedulerName := "s", DNSPolicy := "ClusterFirst",
      RestartPolicy := "Always", Containers := [] }

/-- Environment for the C8 witness: a three-pod list document. -/
def envC8 : Env where
  httpGet := fun _ => .error ("unused")
  fsOpen := fun _ => .ok ("stream")
  abs := fun p => p
  decodePod := fun _ => .error ("unused")
  decodePodList := fun _ => .ok (PodList.mk [podN ("A"), podN ("B"), podN ("C")])
  convert := fun p => .ok p
  validate := fun _ => []

/-- Configuration for the C8 witness: list mode. -/
def cfgC8 : ClusterCapacityConfig where
  Pod := none
  Options :=
    { Kubeconfig := "", DefaultSchedulerConfigFile := "", MaxLimit := 0,
      Verbose := false, PodSpecFile := "", PodListSpecFile := "list.yaml",
      OutputFormat := "" }

/-- Witness for C8 on the concrete list [A, B, C]. -/
theorem ParseAPISpec_order_preserved_witness :
    ∃ out : PodList,
      (ParseAPISpec envC8 cfgC8 ("sched")).2.1.Pod = some out ∧
      out.Items.map (fun p => p.ObjectMeta.Name) =
        (PodList.mk [podN ("A"), podN ("B"), podN ("C")]).Items.map
          (fun p => p.ObjectMeta.Name) ∧
      out.Items.length =
        (PodList.mk [podN ("A"), podN ("B"), podN ("C")]).Items.length :=
  ParseAPISpec_order_preserved envC8 cfgC8 ("sched") ("stream")
    (PodList.mk [podN ("A"), podN ("B"), podN ("C")])
    [Ev.openFile ("list.yaml") ("list.yaml")]
    rfl rfl rfl rfl

/-! ### C9 -/

/-- C9: the loop variable is a value copy, so of the five injected
defaults only the per-container termination-message defaulting (written
through the shared container slice) persists into the stored list; the
namespace, scheduler-name, DNS-policy and restart-policy fields of the
stored pods are exactly those of the decoded document. -/
theorem ParseAPISpec_only_container_defaults_persist (env : Env)
    (s : ClusterCapacityConfig) (schedulerName : String)
    (items : List Pod) (tr : List Ev)
    (hdec : decodeItems env s.Options = (.ok items, tr))
    (hok : processPods env schedulerName items = .ok ()) :
    (ParseAPISpec env s schedulerName).2.1.Pod =
      some (PodList.mk (items.map persistContainerDefaults)) ∧
    ∀ p ∈ items,
      (persistContainerDefaults p).ObjectMeta.Namespace = p.ObjectMeta.Namespace ∧
      (persistContainerDefaults p).Spec.SchedulerName = p.Spec.SchedulerName ∧
      (persistContainerDefaults p).Spec.DNSPolicy = p.Spec.DNSPolicy ∧
      (persistContainerDefaults p).Spec.RestartPolicy = p.Spec.RestartPolicy ∧
      (persistContainerDefaults p).Spec.Containers =
        p.Spec.Containers.map defaultContainer := by
  constructor
  · simp [ParseAPISpec, hdec, hok]
  · intro p hp
    exact ⟨rfl, rfl, rfl, rfl, rfl⟩

/-- Pod with every defaultable field empty, used by C9 and C1. -/
def podE1 : Pod where
  ObjectMeta := { Name := "p1", Namespace := "" }
  Spec :=
    { SchedulerName := "", DNSPolicy := "", RestartPolicy := "",
      Containers := [Container.mk ("c1") ("")] }

/-- Environment for the C9 witness: single-pod mode decoding `podE1`. -/
def envC9 : Env where
  httpGet := fun _ => .error ("unused")
  fsOpen := fun _ => .ok ("stream")
  abs := fun p => p
  decodePod := fun _ => .ok podE1
  decodePodList := fun _ => .error ("unused")
  convert := fun p => .ok p
  validate := fun _ => []

/-- Configuration for the C9 witness: single-pod mode. -/
def cfgC9 : ClusterCapacityConfig where
  Pod := none
  Options :=
    { Kubeconfig := "", DefaultSchedulerConfigFile := "", MaxLimit := 0,
      Verbose := false, PodSpecFile := "pod.yaml", PodListSpecFile := "",
      OutputFormat := "" }

/-- Witness for C9 on a concrete all-empty pod. -/
theorem ParseAPISpec_only_container_defaults_persist_witness :
    (ParseAPISpec envC9 cfgC9 ("sched")).2.1.Pod =
      some (PodList.mk ([podE1].map persistContainerDefaults)) ∧
    ∀ p ∈ [podE1],
      (persistContainerDefaults p).ObjectMeta.Namespace = p.ObjectMeta.Namespace ∧
      (persistContainerDefaults p).Spec.SchedulerName = p.Spec.SchedulerName ∧
      (persistContainerDefaults p).Spec.DNSPolicy = p.Spec.DNSPolicy ∧
      (persistContainerDefaults p).Spec.RestartPolicy = p.Spec.RestartPolicy ∧
      (persistContainerDefaults p).Spec.Containers =
        p.Spec.Containers.map defaultContainer :=
  ParseAPISpec_only_container_defaults_persist envC9 cfgC9 ("sched") [podE1]
    [Ev.openFile ("pod.yaml") ("pod.yaml"), Ev.decodeSingle ("stream")] rfl rfl

/-! ### C1 -/

/-- Environment for C1: single-pod mode decoding the all-empty `podE1`;
conversion and validation accept everything. -/
def envC1 : Env where
  httpGet := fun _ => .error ("unused")
  fsOpen := fun _ => .ok ("stream")
  abs := fun p => p
  decodePod := fun _ => .ok podE1
  decodePodList := fun _ => .error ("unused")
  convert := fun p => .ok p
  validate := fun _ => []

/-- Configuration for C1: single-pod mode. -/
def cfgC1 : ClusterCapacityConfig where
  Pod := none
  Options :=
    { Kubeconfig := "", DefaultSchedulerConfigFile := "", MaxLimit := 0,
      Verbose := false, PodSpecFile := "pod.yaml", PodListSpecFile := "",
      OutputFormat := "" }

/-- C1 counterexample: an ingested workload with all five defaultable
fields empty and scheduler hint configured as
"cluster-capacity-scheduler" is accepted, yet the workload stored in
`s.Pod` carries only the container termination-message default — its
namespace is still empty rather than "default", and the scheduler, DNS
and restart fields likewise keep their decoded (empty) values. -/
theorem ParseAPISpec_defaults_counterexample :
    (ParseAPISpec envC1 cfgC1 ("cluster-capacity-scheduler")).1 = .ok () ∧
    ∃ out,
      (ParseAPISpec envC1 cfgC1 ("cluster-capacity-scheduler")).2.1.Pod =
        some (PodList.mk [out]) ∧
      podE1.ObjectMeta.Namespace = "" ∧
      podE1.Spec.SchedulerName = "" ∧
      podE1.Spec.DNSPolicy = "" ∧
      podE1.Spec.RestartPolicy = "" ∧
      (∀ c ∈ podE1.Spec.Containers, c.TerminationMessagePolicy = "") ∧
      out.ObjectMeta.Namespace ≠ "default" ∧
      out.Spec.SchedulerName ≠ "cluster-capacity-scheduler" ∧
      out.Spec.DNSPolicy ≠ DNSClusterFirst ∧
      out.Spec.RestartPolicy ≠ RestartPolicyAlways ∧
      (∀ c ∈ out.Spec.Containers,
        c.TerminationMessagePolicy = TerminationMessageFallbackToLogsOnError) :=
  ⟨rfl, persistContainerDefaults podE1, by decide⟩

/-- C1 (amended): the defaults are injected into the per-iteration copy
of the workload — the copy handed to conversion and validation carries
namespace "default", the caller-supplied scheduler name, cluster-first
DNS, always-restart, and fallback-to-logs termination policies — but of
these only the container termination-message default persists into the
list returned in `s.Pod`; the other four fields of the stored workload
keep their decoded (empty) values. -/
theorem ParseAPISpec_defaults_on_copy_only (env : Env) (s : ClusterCapacityConfig)
    (schedulerName : String) (p : Pod) (stm : String) (tr : List Ev)
    (hne : 0 < s.Options.PodSpecFile.length)
    (hdr : downloadOrRead env s.Options.PodSpecFile = (.ok stm, tr))
    (hdec : env.decodePod stm = .ok p)
    (hok : processPods env schedulerName [p] = .ok ())
    (hns : p.ObjectMeta.Namespace = "")
    (hsch : p.Spec.SchedulerName = "")
    (hdns : p.Spec.DNSPolicy = "")
    (hrp : p.Spec.RestartPolicy = "")
    (hcs : ∀ c ∈ p.Spec.Containers, c.TerminationMessagePolicy = "") :
    (injectDefaults schedulerName p).ObjectMeta.Namespace = "default" ∧
    (injectDefaults schedulerName p).Spec.SchedulerName = schedulerName ∧
    (injectDefaults schedulerName p).Spec.DNSPolicy = DNSClusterFirst ∧
    (injectDefaults schedulerName p).Spec.RestartPolicy = RestartPolicyAlways ∧
    (∀ c ∈ (injectDefaults schedulerName p).Spec.Containers,
      c.TerminationMessagePolicy = TerminationMessageFallbackToLogsOnError) ∧
    (ParseAPISpec env s schedulerName).2.1.Pod =
      some (PodList.mk [persistContainerDefaults p]) ∧
    (persistContainerDefaults p).ObjectMeta.Namespace = "" ∧
    (persistContainerDefaults p).Spec.SchedulerName = "" ∧
    (persistContainerDefaults p).Spec.DNSPolicy = "" ∧
    (persistContainerDefaults p).Spec.RestartPolicy = "" ∧
    (∀ c ∈ (persistContainerDefaults p).Spec.Containers,
      c.TerminationMessagePolicy = TerminationMessageFallbackToLogsOnError) := by
  refine ⟨?_, ?_, ?_, ?_, ?_, ?_, ?_, ?_, ?_, ?_, ?_⟩
  · simp [injectDefaults, hns, hsch, hdns, hrp]
  · simp [injectDefaults, hns, hsch, hdns, hrp]
  · simp [injectDefaults, hns, hsch, hdns, hrp]
  · simp [injectDefaults, hns, hsch, hdns, hrp]
  · intro c hc
    simp only [injectDefaults] at hc
    simp only [List.mem_map] at hc
    obtain ⟨c0, hc0, hceq⟩ := hc
    subst hceq
    have : c0.TerminationMessagePolicy = "" := by
      apply hcs
      simpa [hns, hsch, hdns, hrp] using hc0
    simp [defaultContainer, this]
  · simp [ParseAPISpec, decodeItems, hne, hdr, hdec, hok]
  · exact hns
  · exact hsch
  · exact hdns
  · exact hrp
  · intro c hc
    simp only [persistContainerDefaults, List.mem_map] at hc
    obtain ⟨c0, hc0, hceq⟩ := hc
    subst hceq
    simp [defaultContainer, hcs c0 hc0]

/-- Witness for the amended C1 on the concrete all-empty pod. -/
theorem ParseAPISpec_defaults_on_copy_only_witness :
    (injectDefaults ("cluster-capacity-scheduler") podE1).ObjectMeta.Namespace =
      "default" ∧
    (injectDefaults ("cluster-capacity-scheduler") podE1).Spec.SchedulerName =
      "cluster-capacity-scheduler" ∧
    (injectDefaults ("cluster-capacity-scheduler") podE1).Spec.DNSPolicy =
      DNSClusterFirst ∧
    (injectDefaults ("cluster-capacity-scheduler") podE1).Spec.RestartPolicy =
      RestartPolicyAlways ∧
    (∀ c ∈ (injectDefaults ("cluster-capacity-scheduler") podE1).Spec.Containers,
      c.TerminationMessagePolicy = TerminationMessageFallbackToLogsOnError) ∧
    (ParseAPISpec envC1 cfgC1 ("cluster-capacity-scheduler")).2.1.Pod =
      some (PodList.mk [persistContainerDefaults podE1]) ∧
    (persistContainerDefaults podE1).ObjectMeta.Namespace = "" ∧
    (persistContainerDefaults podE1).Spec.SchedulerName = "" ∧
    (persistContainerDefaults podE1).Spec.DNSPolicy = "" ∧
    (persistContainerDefaults podE1).Spec.RestartPolicy = "" ∧
    (∀ c ∈ (persistContainerDefaults podE1).Spec.Containers,
      c.TerminationMessagePolicy = TerminationMessageFallbackToLogsOnError) :=
  ParseAPISpec_defaults_on_copy_only envC1 cfgC1 ("cluster-capacity-scheduler")
    podE1 ("stream") [Ev.openFile ("pod.yaml") ("pod.yaml")]
    (by decide) rfl rfl rfl rfl rfl rfl rfl (by decide)

/-! ### C2 -/

/-- First pod of the C2 scenario (name "a"). -/
def podA2 : Pod := podN ("a")

/-- Second pod of the C2 scenario (name "b"). -/
def podB2 : Pod := podN ("b")

/-- Environment for C2: a two-pod list document in which the validator
reports one violation for every pod, naming the pod in the field path. -/
def envC2 : Env where
  httpGet := fun _ => .error ("unused")
  fsOpen := fun _ => .ok ("stream")
  abs := fun p => p
  decodePod := fun _ => .error ("unused")
  decodePodList := fun _ => .ok (PodList.mk [podA2, podB2])
  convert := fun p => .ok p
  validate := fun p => [FieldError.mk ("Required") ("field-of-" ++ p.ObjectMeta.Name)]

/-- Configuration for C2: list mode. -/
def cfgC2 : ClusterCapacityConfig where
  Pod := none
  Options :=
    { Kubeconfig := "", DefaultSchedulerConfigFile := "", MaxLimit := 0,
      Verbose := false, PodSpecFile := "", PodListSpecFile := "list.yaml",
      OutputFormat := "" }

/-- C2 counterexample: both workloads of the ingested list have a
validation violation, yet the error returned by `ParseAPISpec` carries
only the first workload's violation ("field-of-a") and does not mention
the second workload's violation ("field-of-b") at all. -/
theorem ParseAPISpec_multi_failure_counterexample :
    0 < (envC2.validate (injectDefaults ("sched") podA2)).length ∧
    0 < (envC2.validate (injectDefaults ("sched") podB2)).length ∧
    (ParseAPISpec envC2 cfgC2 ("sched")).1 =
      .error (invalidPodMsg [FieldError.mk ("Required") ("field-of-a")]) ∧
    strContains (invalidPodMsg [FieldError.mk ("Required") ("field-of-a")])
      ("field-of-b") = false ∧
    strContains (invalidPodMsg [FieldError.mk ("Required") ("field-of-a")])
      ("field-of-a") = true := by
  refine ⟨by decide, by decide, ?_, by decide, by decide⟩
  have hmsg : invalidPodMsg (envC2.validate (injectDefaults ("sched") podA2)) =
      invalidPodMsg [FieldError.mk ("Required") ("field-of-a")] := by decide
  rw [← hmsg]
  rfl

/-- Processing a block of accepted pods is skipped over by the loop. -/
theorem processPods_append_ok (env : Env) (schedulerName : String) (ps l : List Pod)
    (hps : ∀ p ∈ ps, processPod env schedulerName p = .ok ()) :
    processPods env schedulerName (ps ++ l) = processPods env schedulerName l := by
  induction ps with
  | nil => rfl
  | cons p ps ih =>
    have hp := hps p (List.mem_cons_self p ps)
    simp only [List.cons_append, processPods, hp]
    exact ih fun q hq => hps q (List.mem_cons_of_mem p hq)

/-- C2 (amended): when the workloads before `q` are all accepted and `q`
is the first workload with validation violations, the error returned by
`ParseAPISpec` is the aggregation of all of `q`'s violations — and only
of `q`'s: processing stops at the first failing workload, so violations
of later workloads are not reported. -/
theorem ParseAPISpec_first_failing_pod_reported (env : Env)
    (s : ClusterCapacityConfig) (schedulerName : String)
    (ps rest : List Pod) (q iq : Pod) (tr : List Ev)
    (hdec : decodeItems env s.Options = (.ok (ps ++ q :: rest), tr))
    (hps : ∀ p ∈ ps, processPod env schedulerName p = .ok ())
    (hconv : env.convert (injectDefaults schedulerName q) = .ok iq)
    (herrs : 0 < (env.validate iq).length) :
    (ParseAPISpec env s schedulerName).1 =
      .error (invalidPodMsg (env.validate iq)) := by
  have hq : processPod env schedulerName q =
      .error (invalidPodMsg (env.validate iq)) := by
    simp [processPod, hconv, herrs]
  have hpp : processPods env schedulerName (ps ++ q :: rest) =
      .error (invalidPodMsg (env.validate iq)) := by
    rw [processPods_append_ok env schedulerName ps (q :: rest) hps]
    simp only [processPods, hq]
  simp [ParseAPISpec, hdec, hpp]

/-- Witness for the amended C2 on the concrete two-pod list: the first
pod fails, its full violation list is reported, the second pod is never
reached. -/
theorem ParseAPISpec_first_failing_pod_reported_witness :
    (ParseAPISpec envC2 cfgC2 ("sched")).1 =
      .error (invalidPodMsg (envC2.validate (injectDefaults ("sched") podA2))) :=
  ParseAPISpec_first_failing_pod_reported envC2 cfgC2 ("sched") [] [podB2]
    podA2 (injectDefaults ("sched") podA2)
    [Ev.openFile ("list.yaml") ("list.yaml"), Ev.decodeList ("stream")]
    rfl (fun p hp => by simp at hp) rfl (by decide)
